import Mathlib

/-!
Verification of the ETL pipeline in `pyspark-jobs/` against its
natural-language specification.

The development shallowly embeds the two core modules:

* `database_utils.py` — the `DatabaseManager` credential-resolution state
  machine (`get_password`, `health_check`).  The environment and the external
  `gcloud` secret-access call are modelled as explicit state
  (`PwState`); a call's observable behaviour is a `PwOut` record holding the
  returned-or-raised result, the post-call cache, and whether the external
  call was invoked.
* `sales_analytics_direct.py` — the reference-data refresh / read-back error
  flow (`setup_reference_tables`, `read_reference_data`) with external I/O
  steps modelled as an outcome environment, and the pure transform
  `process_sales_analytics`, with Spark DataFrames modelled as lists of
  records, nullable columns as `Option`, doubles as `ℚ`, and Spark's
  null-skipping aggregate semantics made explicit.
-/

namespace ETL

/-! ### Embedding of `database_utils.py` (`DatabaseManager`) -/

/-- Outcome of the external `subprocess.run(['gcloud', 'secrets', ...])` call:
either it raises (any exception, including `TimeoutExpired` from the 30s
timeout), or it completes with a return code and captured stdout/stderr. -/
inductive GcloudOutcome where
  | raises : GcloudOutcome
  | completes (returncode : Int) (stdout : String) (stderr : String) : GcloudOutcome
  deriving DecidableEq, Repr

/-- State visible to `DatabaseManager.get_password`: the instance cache
`self._password`, the `DATABASE_PASSWORD` environment variable
(`none` = unset), and what the external gcloud call would do if invoked. -/
structure PwState where
  cached : Option String
  envPassword : Option String
  gcloud : GcloudOutcome
  deriving DecidableEq, Repr

/-- Result of a `get_password` call: a returned password string, or the
`Exception("Could not retrieve password for secret ...")` raise. -/
inductive PwResult where
  | ok (password : String) : PwResult
  | unavailable : PwResult
  deriving DecidableEq, Repr

/-- Observable effect of one `get_password` call: its result, the value of
`self._password` afterwards, and whether the external gcloud call ran. -/
structure PwOut where
  result : PwResult
  cache : Option String
  invokedExternal : Bool
  deriving DecidableEq, Repr

/-- The fallback branch of `get_password` (lines 74-93 of
`database_utils.py`): run the gcloud command; on return code 0 cache and
return `stdout.strip()`; otherwise (nonzero code, or any exception
including timeout) fall through to
`raise Exception("Could not retrieve password ...")`. -/
def gcloudFallback (st : PwState) : PwOut :=
  match st.gcloud with
  | .raises => ⟨.unavailable, st.cached, true⟩
  | .completes rc out _ =>
      if rc = 0 then ⟨.ok out.trim, some out.trim, true⟩
      else ⟨.unavailable, st.cached, true⟩

/-- `DatabaseManager.get_password` (lines 50-93 of `database_utils.py`).
Order: (1) return `self._password` if it `is not None`; (2) return the
`DATABASE_PASSWORD` environment value if truthy (set and non-empty),
caching it; (3) fall back to the external gcloud call.  The
`max_retries` / `retry_delay` parameters are accepted but never read,
exactly as in the source. -/
def get_password (st : PwState) ( max_retries retry_delay : Int) : PwOut :=
  match st.cached with
  | some p => ⟨.ok p, some p, false⟩
  | none =>
      match st.envPassword with
      | some ep => if ep = "" then gcloudFallback st else ⟨.ok ep, some ep, false⟩
      | none => gcloudFallback st

/-- `DatabaseManager.health_check` (lines 125-149 of `database_utils.py`).
The whole body is wrapped in `try ... except Exception: return False`, so a
raise inside `get_password` becomes `False`.  `all([host, database,
username, port])` is Python truthiness: empty strings and port `0` fail it.
`get_password` is called with its default arguments `(3, 1)`. -/
def health_check (host database username : String) (port : Int) (st : PwState) : Bool :=
  if host = "" ∨ database = "" ∨ username = "" ∨ port = 0 then false
  else
    match (get_password st 3 1).result with
    | .ok p => if p = "" then false else true
    | .unavailable => false

/-! ### Embedding of the reference-data flow
(`setup_reference_tables`, `read_reference_data` in
`sales_analytics_direct.py`) -/

/-- Outcome of one external I/O step (a Spark CSV read or a JDBC
read/write): it succeeds, or it raises an exception carrying a message. -/
inductive StepOutcome where
  | ok : StepOutcome
  | fails (msg : String) : StepOutcome
  deriving DecidableEq, Repr

/-- Environment of external effects observed by `read_reference_data`, in
program order: the `health_check` result, the two GCS CSV reads and the two
JDBC table writes inside `setup_reference_tables`, and the two JDBC
read-backs. -/
structure RefEnv where
  healthOk : Bool
  productsCsvRead : StepOutcome
  storesCsvRead : StepOutcome
  productsWrite : StepOutcome
  storesWrite : StepOutcome
  productsRead : StepOutcome
  storesRead : StepOutcome
  deriving DecidableEq, Repr

/-- Run one step: an exception propagates its message unchanged. -/
def runStep (s : StepOutcome) : Except String Unit :=
  match s with
  | .ok => .ok ()
  | .fails m => .error m

/-- `setup_reference_tables` (lines 126-151 of `sales_analytics_direct.py`):
read the two CSVs, then write products then stores over JDBC.  The body has
no try/except, so the first exception propagates as-is. -/
def setup_reference_tables (env : RefEnv) : Except String Unit := do
  runStep env.productsCsvRead
  runStep env.storesCsvRead
  runStep env.productsWrite
  runStep env.storesWrite

/-- The body of the `try:` block of `read_reference_data` (lines 156-184):
health check (raising `Exception("Database health check failed")` when it
returns false), then `setup_reference_tables`, then the two JDBC reads. -/
def read_reference_data_body (env : RefEnv) : Except String Unit := do
  if env.healthOk = false then .error "Database health check failed"
  else
    setup_reference_tables env
    runStep env.productsRead
    runStep env.storesRead

/-- `read_reference_data` (lines 153-188): the whole body runs under
`try ... except Exception as e: raise Exception(f"Database connection failed: \x7bstr(e)\x7d")`,
so every failure — health check, either refresh write, either read-back —
is re-raised as the same generic exception wrapping the cause's message. -/
def read_reference_data (env : RefEnv) : Except String Unit :=
  match read_reference_data_body env with
  | .ok x => .ok x
  | .error m => .error ("Database connection failed: " ++ m)

/-! ### Embedding of `process_sales_analytics`
(lines 190-247 of `sales_analytics_direct.py`)

Spark DataFrames are lists of records; nullable columns are `Option`;
`DoubleType` is modelled as `ℚ` (exact arithmetic). -/

/-- A row of the sales DataFrame, per the explicit schema of
`read_sales_data` (lines 111-119): all seven columns nullable. -/
structure SalesRow where
  transaction_id : Option String
  product_id : Option String
  store_id : Option String
  quantity : Option Int
  unit_price : Option ℚ
  transaction_date : Option String
  customer_id : Option String
  deriving DecidableEq, Repr

/-- A row of the products DataFrame (header-inferred CSV mirrored through
PostgreSQL): key, name, category, and a possible `unit_price` column whose
values are represented here and dropped by the transform. -/
structure ProductRow where
  product_id : Option String
  product_name : Option String
  category : Option String
  unit_price : Option ℚ
  deriving DecidableEq, Repr

/-- A row of the stores DataFrame. -/
structure StoreRow where
  store_id : Option String
  store_name : Option String
  store_location : Option String
  deriving DecidableEq, Repr

/-- A calendar date (year, month, day) as produced by Spark's `to_date`. -/
abbrev Date : Type := Nat × Nat × Nat

/-- Split a character list on the dash separator. -/
def splitDash (cs : List Char) : List (List Char) :=
  match cs with
  | [] => [[]]
  | c :: rest =>
      let r := splitDash rest
      if c = '-' then [] :: r
      else
        match r with
        | [] => [[c]]
        | g :: gs => (c :: g) :: gs

/-- Numeric value of a decimal digit character, `none` otherwise. -/
def digitVal (c : Char) : Option Nat :=
  if c.isDigit then some (c.toNat - 48) else none

/-- Parse a non-empty all-digit character list as a natural number. -/
def parseNatDigits (cs : List Char) : Option Nat :=
  match cs with
  | [] => none
  | _ =>
      cs.foldl (fun acc c => acc.bind (fun a => (digitVal c).map (fun d => 10 * a + d)))
        (some 0)

/-- Model of Spark's `to_date(col, "yyyy-MM-dd")` on a non-null string:
parse `y-m-d` with numeric fields and plausible month/day ranges, returning
null (`none`) on any mismatch. -/
def parseDate (s : String) : Option Date :=
  match (splitDash s.toList).map parseNatDigits with
  | [some y, some m, some d] =>
      if 1 ≤ m ∧ m ≤ 12 ∧ 1 ≤ d ∧ d ≤ 31 then some (y, m, d) else none
  | _ => none

/-- Spark's null-propagating product `col("quantity") * col("unit_price")`:
null if either operand is null. -/
def optMul (q : Option Int) (u : Option ℚ) : Option ℚ :=
  q.bind (fun qv => u.map (fun uv => (qv : ℚ) * uv))

/-- A sales row after the two `withColumn` steps (lines 194-200):
`transaction_date` normalised to a date, `total_amount` added. -/
structure CleanRow where
  transaction_id : Option String
  product_id : Option String
  store_id : Option String
  quantity : Option Int
  unit_price : Option ℚ
  transaction_date : Option Date
  customer_id : Option String
  total_amount : Option ℚ
  deriving DecidableEq, Repr

/-- The `sales_clean` stage (lines 194-200). -/
def cleanSales (s : SalesRow) : CleanRow :=
  { transaction_id := s.transaction_id
    product_id := s.product_id
    store_id := s.store_id
    quantity := s.quantity
    unit_price := s.unit_price
    transaction_date := s.transaction_date.bind parseDate
    customer_id := s.customer_id
    total_amount := optMul s.quantity s.unit_price }

/-- Line 203: `products_df.drop("unit_price")` — the dimension table's
`unit_price` column is removed before the join. -/
def dropUnitPrice (p : ProductRow) : ProductRow :=
  { p with unit_price := none }

/-- Spark join-key equality: null keys never match (`null = null` is not
true in SQL). -/
def keyMatch (a b : Option String) : Bool :=
  match a, b with
  | some x, some y => x = y
  | _, _ => false

/-- A row after the left join with products (line 207). -/
structure ProdJoined where
  transaction_id : Option String
  product_id : Option String
  store_id : Option String
  quantity : Option Int
  unit_price : Option ℚ
  transaction_date : Option Date
  customer_id : Option String
  total_amount : Option ℚ
  product_name : Option String
  category : Option String
  deriving DecidableEq, Repr

/-- A fully enriched row after both left joins (lines 206-208). -/
structure EnrichedRow where
  transaction_id : Option String
  product_id : Option String
  store_id : Option String
  quantity : Option Int
  unit_price : Option ℚ
  transaction_date : Option Date
  customer_id : Option String
  total_amount : Option ℚ
  product_name : Option String
  category : Option String
  store_name : Option String
  store_location : Option String
  deriving DecidableEq, Repr

/-- Left join of one cleaned sales row with the products table on
`product_id`: one output row per matching product row, or a single
null-padded row when no product matches. -/
def joinProducts (products : List ProductRow) (r : CleanRow) : List ProdJoined :=
  let ms := products.filter (fun p => keyMatch r.product_id p.product_id)
  if ms.isEmpty then
    [⟨r.transaction_id, r.product_id, r.store_id, r.quantity, r.unit_price,
      r.transaction_date, r.customer_id, r.total_amount, none, none⟩]
  else
    ms.map (fun p =>
      ⟨r.transaction_id, r.product_id, r.store_id, r.quantity, r.unit_price,
       r.transaction_date, r.customer_id, r.total_amount,
       p.product_name, p.category⟩)

/-- Left join of one product-joined row with the stores table on
`store_id`. -/
def joinStores (stores : List StoreRow) (r : ProdJoined) : List EnrichedRow :=
  let ms := stores.filter (fun t => keyMatch r.store_id t.store_id)
  if ms.isEmpty then
    [⟨r.transaction_id, r.product_id, r.store_id, r.quantity, r.unit_price,
      r.transaction_date, r.customer_id, r.total_amount,
      r.product_name, r.category, none, none⟩]
  else
    ms.map (fun t =>
      ⟨r.transaction_id, r.product_id, r.store_id, r.quantity, r.unit_price,
       r.transaction_date, r.customer_id, r.total_amount,
       r.product_name, r.category, t.store_name, t.store_location⟩)

/-- The `enriched_sales` DataFrame (lines 194-208): clean the sales rows,
drop the dimension `unit_price`, then the two left joins. -/
def enrichedSales (sales : List SalesRow) (products : List ProductRow)
    (stores : List StoreRow) : List EnrichedRow :=
  ((sales.map cleanSales).flatMap
    (joinProducts (products.map dropUnitPrice))).flatMap (joinStores stores)

/-! Spark aggregate semantics on grouped data: `sum` and `avg` skip nulls
and are null when every input is null; `countDistinct` counts distinct
non-null values. -/

/-- Spark `sum` over a `DoubleType` column. -/
def sparkSumQ (l : List (Option ℚ)) : Option ℚ :=
  if (l.filterMap id).isEmpty then none else some (l.filterMap id).sum

/-- Spark `sum` over an `IntegerType` column (result is `LongType`). -/
def sparkSumZ (l : List (Option Int)) : Option Int :=
  if (l.filterMap id).isEmpty then none else some (l.filterMap id).sum

/-- Spark `countDistinct`: the number of distinct non-null values. -/
def countDistinct (l : List (Option String)) : Nat :=
  (l.filterMap id).dedup.length

/-- Spark `avg`: mean of the non-null values, null when there are none. -/
def sparkAvg (l : List (Option ℚ)) : Option ℚ :=
  if (l.filterMap id).isEmpty then none
  else some ((l.filterMap id).sum / ((l.filterMap id).length : ℚ))

/-- Grouping key of `daily_sales` (lines 211-215):
`(transaction_date, store_id, store_name, store_location)`.  Spark
`groupBy` treats null key values like any other value, so the key is a
tuple of `Option`s. -/
def dailyKey (r : EnrichedRow) : Option Date × Option String × Option String × Option String :=
  (r.transaction_date, r.store_id, r.store_name, r.store_location)

/-- Grouping key of `product_performance` (lines 224-227). -/
def productKey (r : EnrichedRow) : Option String × Option String × Option String :=
  (r.product_id, r.product_name, r.category)

/-- Grouping key of `store_performance` (lines 236-239). -/
def storeKey (r : EnrichedRow) : Option String × Option String × Option String :=
  (r.store_id, r.store_name, r.store_location)

/-- A row of the `daily_sales` output (lines 210-221). -/
structure DailyRow where
  transaction_date : Option Date
  store_id : Option String
  store_name : Option String
  store_location : Option String
  daily_revenue : Option ℚ
  daily_quantity : Option Int
  daily_transactions : Nat
  unique_customers : Nat
  deriving DecidableEq, Repr

/-- A row of the `product_performance` output (lines 223-233). -/
structure ProductPerfRow where
  product_id : Option String
  product_name : Option String
  category : Option String
  total_revenue : Option ℚ
  total_quantity_sold : Option Int
  avg_unit_price : Option ℚ
  stores_sold_in : Nat
  deriving DecidableEq, Repr

/-- A row of the `store_performance` output (lines 235-245). -/
structure StorePerfRow where
  store_id : Option String
  store_name : Option String
  store_location : Option String
  total_revenue : Option ℚ
  total_items_sold : Option Int
  unique_products : Nat
  unique_customers : Nat
  deriving DecidableEq, Repr

/-- The `daily_sales` aggregation (lines 210-221): one output row per
distinct grouping key, with the four aggregates computed over the rows of
that group. -/
def dailySalesOf (rows : List EnrichedRow) : List DailyRow :=
  ((rows.map dailyKey).dedup).map (fun k =>
    let g := rows.filter (fun r => decide (dailyKey r = k))
    ⟨k.1, k.2.1, k.2.2.1, k.2.2.2,
     sparkSumQ (g.map (fun r => r.total_amount)),
     sparkSumZ (g.map (fun r => r.quantity)),
     countDistinct (g.map (fun r => r.transaction_id)),
     countDistinct (g.map (fun r => r.customer_id))⟩)

/-- The `product_performance` aggregation (lines 223-233). -/
def productPerformanceOf (rows : List EnrichedRow) : List ProductPerfRow :=
  ((rows.map productKey).dedup).map (fun k =>
    let g := rows.filter (fun r => decide (productKey r = k))
    ⟨k.1, k.2.1, k.2.2,
     sparkSumQ (g.map (fun r => r.total_amount)),
     sparkSumZ (g.map (fun r => r.quantity)),
     sparkAvg (g.map (fun r => r.unit_price)),
     countDistinct (g.map (fun r => r.store_id))⟩)

/-- The `store_performance` aggregation (lines 235-245). -/
def storePerformanceOf (rows : List EnrichedRow) : List StorePerfRow :=
  ((rows.map storeKey).dedup).map (fun k =>
    let g := rows.filter (fun r => decide (storeKey r = k))
    ⟨k.1, k.2.1, k.2.2,
     sparkSumQ (g.map (fun r => r.total_amount)),
     sparkSumZ (g.map (fun r => r.quantity)),
     countDistinct (g.map (fun r => r.product_id)),
     countDistinct (g.map (fun r => r.customer_id))⟩)

/-- `process_sales_analytics` (lines 190-247): enrich, then compute the
three aggregate views. -/
def process_sales_analytics (sales : List SalesRow) (products : List ProductRow)
    (stores : List StoreRow) :
    List DailyRow × List ProductPerfRow × List StorePerfRow :=
  let e := enrichedSales sales products stores
  (dailySalesOf e, productPerformanceOf e, storePerformanceOf e)

/-! ### Claims about credential resolution and reference-data errors -/

/-- C9: the retry parameters of credential resolution are dead: for every
state and every two pairs of values for `max_retries` and `retry_delay`,
`get_password` performs the same sequence of attempts and produces the
same result — its behaviour (result, cache, external invocation) is
independent of these two parameters. -/
theorem claim_C9 (st : PwState) (a b c d : Int) :
    get_password st a b = get_password st c d := rfl

/-- C10: an injected credential equal to the empty string is treated as
absent: with no cached credential and `DATABASE_PASSWORD` set to the empty
string, `get_password` behaves exactly as if the variable were unset — it
proceeds to the external secret-access fallback (which is invoked). -/
theorem claim_C10 (g : GcloudOutcome) (a b : Int) :
    get_password ⟨none, some "", g⟩ a b = get_password ⟨none, none, g⟩ a b ∧
      (get_password ⟨none, some "", g⟩ a b).invokedExternal = true := by
  refine ⟨rfl, ?_⟩
  cases g with
  | raises => rfl
  | completes rc out err =>
      by_cases h : rc = 0 <;> simp [get_password, gcloudFallback, h]

/-- C5: credential resolution tries an injected credential first and falls
back to the external secret call only if none is injected: (1) a cached
credential is returned without invoking the external call; (2) with no
cache, a non-empty `DATABASE_PASSWORD` value is returned and cached without
invoking the external call (an empty value counts as absent, see C10);
(3) with neither, the external call is invoked and the call raises exactly
when it errors/times out or exits nonzero; (4) any success caches the
credential and a later call on the resulting state returns it without a
further external call. -/
theorem claim_C5 (st : PwState) (a b c d : Int) (p : String) :
    (st.cached = some p → get_password st a b = ⟨.ok p, some p, false⟩) ∧
    (st.cached = none → st.envPassword = some p → p ≠ "" →
      get_password st a b = ⟨.ok p, some p, false⟩) ∧
    (st.cached = none → (st.envPassword = none ∨ st.envPassword = some "") →
      (get_password st a b).invokedExternal = true ∧
      ((get_password st a b).result = PwResult.unavailable ↔
        st.gcloud = .raises ∨
          ∃ rc out err, st.gcloud = .completes rc out err ∧ rc ≠ 0)) ∧
    ((get_password st a b).result = .ok p →
      (get_password st a b).cache = some p ∧
      get_password ⟨(get_password st a b).cache, st.envPassword, st.gcloud⟩ c d =
        ⟨.ok p, some p, false⟩) := by
  obtain ⟨cached, env, g⟩ := st
  refine ⟨?_, ?_, ?_, ?_⟩
  · rintro rfl
    rfl
  · rintro rfl rfl hp
    simp [get_password, hp]
  · rintro rfl henv
    have hfall : get_password ⟨none, env, g⟩ a b = gcloudFallback ⟨none, env, g⟩ := by
      rcases henv with rfl | rfl <;> simp [get_password]
    rw [hfall]
    cases g with
    | raises => simp [gcloudFallback]
    | completes rc out err =>
        by_cases h : rc = 0 <;> simp [gcloudFallback, h]
  · intro hok
    cases cached with
    | some q =>
        simp [get_password] at hok ⊢
        simp [hok]
    | none =>
        cases env with
        | none =>
            simp [get_password, gcloudFallback] at hok ⊢
            cases g with
            | raises => simp [gcloudFallback] at hok
            | completes rc out err =>
                by_cases h : rc = 0
                · simp [gcloudFallback, h] at hok ⊢
                  simp [hok]
                · simp [gcloudFallback, h] at hok
        | some ep =>
            by_cases he : ep = ""
            · subst he
              simp [get_password, gcloudFallback] at hok ⊢
              cases g with
              | raises => simp [gcloudFallback] at hok
              | completes rc out err =>
                  by_cases h : rc = 0
                  · simp [gcloudFallback, h] at hok ⊢
                    simp [hok]
                  · simp [gcloudFallback, h] at hok
            · simp [get_password, he] at hok ⊢
              simp [hok]

/-- Witness for C5 at concrete states: a cached credential is returned
directly; a non-empty environment credential is returned directly; with
neither present the external call is invoked and a raising call yields
`unavailable`; an environment success is cached and the next call returns
the cached value. -/
theorem claim_C5_witness :
    (get_password ⟨some "pw0", none, .raises⟩ 3 1 = ⟨.ok "pw0", some "pw0", false⟩) ∧
    (get_password ⟨none, some "envpw", .raises⟩ 3 1 = ⟨.ok "envpw", some "envpw", false⟩) ∧
    ((get_password ⟨none, none, .raises⟩ 3 1).invokedExternal = true ∧
      ((get_password ⟨none, none, .raises⟩ 3 1).result = PwResult.unavailable ↔
        (⟨none, none, .raises⟩ : PwState).gcloud = .raises ∨
          ∃ rc out err,
            (⟨none, none, .raises⟩ : PwState).gcloud = .completes rc out err ∧ rc ≠ 0)) ∧
    ((get_password ⟨none, some "envpw", .raises⟩ 3 1).cache = some "envpw" ∧
      get_password
          ⟨(get_password ⟨none, some "envpw", .raises⟩ 3 1).cache, some "envpw", .raises⟩ 3 1 =
        ⟨.ok "envpw", some "envpw", false⟩) :=
  ⟨(claim_C5 ⟨some "pw0", none, .raises⟩ 3 1 3 1 "pw0").1 rfl,
   (claim_C5 ⟨none, some "envpw", .raises⟩ 3 1 3 1 "envpw").2.1 rfl rfl (by decide),
   (claim_C5 ⟨none, none, .raises⟩ 3 1 3 1 "x").2.2.1 rfl (Or.inl rfl),
   (claim_C5 ⟨none, some "envpw", .raises⟩ 3 1 3 1 "envpw").2.2.2 (by decide)⟩

/-- C8 counterexample: at a state with all four connection fields valid but
where the credential resolver raises (no cache, no environment value, and
the external call raising), `health_check` returns `false` instead of
propagating the failure — the `try/except` in its body converts every
resolver failure to `False`, contradicting the claim that unexpected
resolver failures are re-raised. -/
theorem claim_C8_counterexample :
    health_check "dbhost" "salesdb" "dbuser" 5432 ⟨none, none, .raises⟩ = false := by
  decide

/-- C8 (amended): `health_check` returns `True` exactly when all four
required connection fields are non-empty (port nonzero) and credential
resolution returns a non-empty credential; in every other case — including
when the credential resolver raises — it returns `False`.  It never
propagates resolver failures. -/
theorem claim_C8 (host database username : String) (port : Int) (st : PwState) :
    health_check host database username port st = true ↔
      (host ≠ "" ∧ database ≠ "" ∧ username ≠ "" ∧ port ≠ 0 ∧
        ∃ p, (get_password st 3 1).result = .ok p ∧ p ≠ "") := by
  unfold health_check
  by_cases hc : host = "" ∨ database = "" ∨ username = "" ∨ port = 0
  · simp only [hc, if_true]
    constructor
    · intro h
      exact absurd h (by simp)
    · rintro ⟨h1, h2, h3, h4, _⟩
      rcases hc with h | h | h | h <;> simp_all
  · simp only [hc, if_false]
    push_neg at hc
    obtain ⟨h1, h2, h3, h4⟩ := hc
    cases hres : (get_password st 3 1).result with
    | ok p =>
        by_cases hp : p = ""
        · simp only [hp, if_true]
          constructor
          · intro h
            cases h
          · rintro ⟨_, _, _, _, q, hq, hqne⟩
            cases hq
            exact absurd rfl hqne
        · simp only [hp, if_false]
          constructor
          · intro _
            exact ⟨h1, h2, h3, h4, p, rfl, hp⟩
          · intro _
            trivial
    | unavailable =>
        constructor
        · intro h
          cases h
        · rintro ⟨_, _, _, _, q, hq, _⟩
          cases hq

/-- C7 counterexample: a refresh failure of the `products` table and a
read-back failure of the `stores` table (same underlying message) produce
identical generic errors — the code wraps every failure in
`Exception("Database connection failed: ...")`, so the two failure kinds
are not distinguishable and the offending table is not named. -/
theorem claim_C7_counterexample :
    read_reference_data ⟨true, .ok, .ok, .fails "x", .ok, .ok, .ok⟩ =
        read_reference_data ⟨true, .ok, .ok, .ok, .ok, .ok, .fails "x"⟩ ∧
      read_reference_data ⟨true, .ok, .ok, .fails "x", .ok, .ok, .ok⟩ =
        .error "Database connection failed: x" := by
  constructor <;> rfl

/-- C7 (amended): every reference-data failure — health check, refreshing
either dimension table, or reading either table back — is re-raised as one
generic error whose message is `"Database connection failed: "` followed by
the underlying cause's message; no distinct `ReferenceRefreshFailed` /
`ReferenceReadFailed` kinds exist and the wrapper does not name the
offending table. -/
theorem claim_C7 (env : RefEnv) (e : String)
    (h : read_reference_data env = .error e) :
    ∃ m, e = "Database connection failed: " ++ m := by
  unfold read_reference_data at h
  cases hb : read_reference_data_body env with
  | ok u => rw [hb] at h; cases h
  | error m =>
      rw [hb] at h
      cases h
      exact ⟨m, rfl⟩

/-- Witness for C7 at a concrete failing environment: the produced error
message carries the generic prefix. -/
theorem claim_C7_witness :
    ∃ m, ("Database connection failed: x" : String) = "Database connection failed: " ++ m :=
  claim_C7 ⟨true, .ok, .ok, .fails "x", .ok, .ok, .ok⟩ "Database connection failed: x" rfl

/-! ### Claims about the analytics transform -/

/-- The single transaction of the C4 scenario. -/
def scenarioSale : SalesRow :=
  ⟨some "t1", some "p1", some "s1", some 2, some 10, some "2024-01-01", some "c1"⟩

/-- The single product of the C4 scenario (no `unit_price` column). -/
def scenarioProduct : ProductRow := ⟨some "p1", some "Widget", some "Toys", none⟩

/-- The single store of the C4 scenario. -/
def scenarioStore : StoreRow := ⟨some "s1", some "Store A", some "NYC"⟩

/-- C4: on the scenario input (one transaction `t1` of quantity 2 at unit
price 10.0 on 2024-01-01 by customer `c1`, product `p1` = Widget/Toys,
store `s1` = Store A/NYC), the transform's DailySalesSummary is exactly one
row: date 2024-01-01, store `s1` (Store A, NYC), `daily_revenue` 20.0,
`daily_quantity` 2, `daily_transactions` 1, `unique_customers` 1 —
grouping by (transaction_date, store_id, store_name, store_location) and
aggregating sum(total_amount), sum(quantity), count-distinct of
transaction_id and of customer_id. -/
theorem claim_C4 :
    (process_sales_analytics [scenarioSale] [scenarioProduct] [scenarioStore]).1 =
      [⟨some (2024, 1, 1), some "s1", some "Store A", some "NYC",
        some 20, some 2, 1, 1⟩] := by
  simp +decide [process_sales_analytics, enrichedSales, cleanSales, joinProducts,
    joinStores, dropUnitPrice, keyMatch, optMul, parseDate, splitDash, parseNatDigits,
    digitVal, dailySalesOf, dailyKey, sparkSumQ, sparkSumZ, countDistinct,
    scenarioSale, scenarioProduct, scenarioStore]
  norm_num


/-- Summing an indicator assignment over a duplicate-free key list that
contains the key yields the assigned value. -/
theorem sum_map_ite_eq {κ : Type} [DecidableEq κ] (x : κ) (c : ℚ) (K : List κ)
    (hnd : K.Nodup) (hx : x ∈ K) :
    (K.map (fun k => if x = k then c else 0)).sum = c := by
  induction K with
  | nil => cases hx
  | cons k ks ih =>
      rcases List.mem_cons.mp hx with rfl | hxs
      · have hnot : x ∉ ks := (List.nodup_cons.mp hnd).1
        have hz : (ks.map (fun k => if x = k then c else 0)).sum = 0 := by
          apply List.sum_eq_zero
          intro y hy
          rcases List.mem_map.mp hy with ⟨k2, hk2, rfl⟩
          have : x ≠ k2 := fun h => hnot (h ▸ hk2)
          simp [this]
        simp [hz]
      · have hne : x ≠ k := by
          rintro rfl
          exact (List.nodup_cons.mp hnd).1 hxs
        simp [hne, ih (List.nodup_cons.mp hnd).2 hxs]

/-- Fiber decomposition over an arbitrary duplicate-free covering key
list: summing per-group sums equals the total sum. -/
theorem sum_fiber_aux {α κ : Type} [DecidableEq κ] (key : α → κ) (f : α → ℚ)
    (K : List κ) (hnd : K.Nodup) :
    ∀ rows : List α, (∀ r ∈ rows, key r ∈ K) →
      (K.map (fun k => ((rows.filter (fun r => decide (key r = k))).map f).sum)).sum
        = (rows.map f).sum := by
  intro rows
  induction rows with
  | nil => simp
  | cons r rs ih =>
      intro hcov
      have hstep : ∀ k ∈ K,
          (((r :: rs).filter (fun x => decide (key x = k))).map f).sum
            = (if key r = k then f r else 0)
              + ((rs.filter (fun x => decide (key x = k))).map f).sum := by
        intro k _
        by_cases h : key r = k <;> simp [List.filter_cons, h]
      rw [List.map_congr_left hstep, List.sum_map_add]
      rw [sum_map_ite_eq (key r) (f r) K hnd (hcov r (List.mem_cons_self r rs))]
      rw [ih (fun x hx => hcov x (List.mem_cons_of_mem r hx))]
      simp

/-- Grouping as performed by the aggregate views partitions the rows:
the per-group sums add up to the overall sum. -/
theorem sum_fiber {α κ : Type} [DecidableEq κ] (key : α → κ) (f : α → ℚ)
    (rows : List α) :
    (((rows.map key).dedup).map
        (fun k => ((rows.filter (fun r => decide (key r = k))).map f).sum)).sum
      = (rows.map f).sum := by
  apply sum_fiber_aux key f _ (List.nodup_dedup _)
  intro r hr
  exact List.mem_dedup.mpr (List.mem_map_of_mem key hr)

/-- The sum of present values equals the sum with nulls counted as 0. -/
theorem filterMap_id_sum (l : List (Option ℚ)) :
    (l.filterMap id).sum = (l.map (fun o => o.getD 0)).sum := by
  induction l with
  | nil => rfl
  | cons o t ih => cases o <;> simp [List.filterMap_cons, ih]

/-- A Spark null-skipping sum, read with null as 0, is the sum of the
column with nulls as 0. -/
theorem sparkSumQ_getD (l : List (Option ℚ)) :
    (sparkSumQ l).getD 0 = (l.map (fun o => o.getD 0)).sum := by
  unfold sparkSumQ
  by_cases h : (l.filterMap id).isEmpty
  · rw [if_pos h]
    rw [← filterMap_id_sum]
    rw [List.isEmpty_iff.mp h]
    rfl
  · rw [if_neg h]
    rw [← filterMap_id_sum]
    rfl

/-- C1: conservation law — for every non-empty transaction set and any
dimension sets, the sum of `daily_revenue` over all groups of the
DailySalesSummary produced by the transform equals the sum of
`total_amount` over all EnrichedTransaction rows, null values contributing
nothing to either side. -/
theorem claim_C1 (sales : List SalesRow) (products : List ProductRow)
    (stores : List StoreRow) (hne : sales ≠ []) :
    (((process_sales_analytics sales products stores).1).map
        (fun d => d.daily_revenue.getD 0)).sum =
      ((enrichedSales sales products stores).map
        (fun e => e.total_amount.getD 0)).sum := by
  have _ := hne
  simp only [process_sales_analytics, dailySalesOf, List.map_map]
  have hcomp : ∀ k,
      ((fun d : DailyRow => d.daily_revenue.getD 0) ∘
          (fun k =>
            (⟨k.1, k.2.1, k.2.2.1, k.2.2.2,
              sparkSumQ (((enrichedSales sales products stores).filter
                (fun r => decide (dailyKey r = k))).map (fun r => r.total_amount)),
              sparkSumZ (((enrichedSales sales products stores).filter
                (fun r => decide (dailyKey r = k))).map (fun r => r.quantity)),
              countDistinct (((enrichedSales sales products stores).filter
                (fun r => decide (dailyKey r = k))).map (fun r => r.transaction_id)),
              countDistinct (((enrichedSales sales products stores).filter
                (fun r => decide (dailyKey r = k))).map (fun r => r.customer_id))⟩ :
              DailyRow))) k
        = (((enrichedSales sales products stores).filter
            (fun r => decide (dailyKey r = k))).map
              (fun r => r.total_amount.getD 0)).sum := by
    intro k
    simp only [Function.comp]
    rw [sparkSumQ_getD]
    rw [List.map_map]
    rfl
  rw [List.map_congr_left (fun k _ => hcomp k)]
  exact sum_fiber dailyKey (fun r => r.total_amount.getD 0) _


/-- Witness for C1 at the concrete scenario inputs. -/
theorem claim_C1_witness :
    (((process_sales_analytics [scenarioSale] [scenarioProduct] [scenarioStore]).1).map
        (fun d => d.daily_revenue.getD 0)).sum =
      ((enrichedSales [scenarioSale] [scenarioProduct] [scenarioStore]).map
        (fun e => e.total_amount.getD 0)).sum :=
  claim_C1 [scenarioSale] [scenarioProduct] [scenarioStore] (by decide)


/-- Every row emitted by the products left join preserves all
transaction-side fields of the left row. -/
theorem mem_joinProducts_fields (ps : List ProductRow) (c : CleanRow) (x : ProdJoined)
    (hx : x ∈ joinProducts ps c) :
    x.transaction_id = c.transaction_id ∧ x.product_id = c.product_id ∧
    x.store_id = c.store_id ∧ x.quantity = c.quantity ∧
    x.unit_price = c.unit_price ∧ x.transaction_date = c.transaction_date ∧
    x.customer_id = c.customer_id ∧ x.total_amount = c.total_amount := by
  unfold joinProducts at hx
  by_cases h : (ps.filter (fun p => keyMatch c.product_id p.product_id)).isEmpty
  · rw [if_pos h] at hx
    rw [List.mem_singleton] at hx
    subst hx
    exact ⟨rfl, rfl, rfl, rfl, rfl, rfl, rfl, rfl⟩
  · rw [if_neg h] at hx
    rcases List.mem_map.mp hx with ⟨p, _, rfl⟩
    exact ⟨rfl, rfl, rfl, rfl, rfl, rfl, rfl, rfl⟩

/-- Every row emitted by the stores left join preserves all fields of the
left row. -/
theorem mem_joinStores_fields (ss : List StoreRow) (pj : ProdJoined) (x : EnrichedRow)
    (hx : x ∈ joinStores ss pj) :
    x.transaction_id = pj.transaction_id ∧ x.product_id = pj.product_id ∧
    x.store_id = pj.store_id ∧ x.quantity = pj.quantity ∧
    x.unit_price = pj.unit_price ∧ x.transaction_date = pj.transaction_date ∧
    x.customer_id = pj.customer_id ∧ x.total_amount = pj.total_amount ∧
    x.product_name = pj.product_name ∧ x.category = pj.category := by
  unfold joinStores at hx
  by_cases h : (ss.filter (fun t => keyMatch pj.store_id t.store_id)).isEmpty
  · rw [if_pos h] at hx
    rw [List.mem_singleton] at hx
    subst hx
    exact ⟨rfl, rfl, rfl, rfl, rfl, rfl, rfl, rfl, rfl, rfl⟩
  · rw [if_neg h] at hx
    rcases List.mem_map.mp hx with ⟨t, _, rfl⟩
    exact ⟨rfl, rfl, rfl, rfl, rfl, rfl, rfl, rfl, rfl, rfl⟩

/-- Every enriched row's `total_amount` is its own (transaction-side)
`quantity` times `unit_price` under null-propagating multiplication. -/
theorem mem_enrichedSales_total_amount (sales : List SalesRow) (products : List ProductRow)
    (stores : List StoreRow) (e : EnrichedRow)
    (he : e ∈ enrichedSales sales products stores) :
    e.total_amount = optMul e.quantity e.unit_price := by
  unfold enrichedSales at he
  rcases List.mem_flatMap.mp he with ⟨pj, hpj, hepj⟩
  rcases List.mem_flatMap.mp hpj with ⟨c, hc, hcpj⟩
  rcases List.mem_map.mp hc with ⟨s, _, rfl⟩
  obtain ⟨-, -, -, hq, hu, -, -, hta⟩ := mem_joinProducts_fields _ _ _ hcpj
  obtain ⟨-, -, -, hq2, hu2, -, -, hta2, -, -⟩ := mem_joinStores_fields _ _ _ hepj
  rw [hta2, hta, hq2, hq, hu2, hu]
  rfl

/-- C3: the transform computes `total_amount` as the transaction's
quantity times the transaction's `unit_price`; the products table's
`unit_price` column is dropped before the join, so the transform's outputs
never depend on the dimension table's `unit_price` values (two product
tables equal after dropping `unit_price` give identical outputs). -/
theorem claim_C3 (sales : List SalesRow) (products products2 : List ProductRow)
    (stores : List StoreRow) (e : EnrichedRow) :
    (e ∈ enrichedSales sales products stores →
      e.total_amount = optMul e.quantity e.unit_price) ∧
    (products.map dropUnitPrice = products2.map dropUnitPrice →
      process_sales_analytics sales products stores =
        process_sales_analytics sales products2 stores) := by
  constructor
  · exact mem_enrichedSales_total_amount sales products stores e
  · intro h
    unfold process_sales_analytics enrichedSales
    rw [h]

/-- Witness for C3: the scenario's enriched row satisfies the
`total_amount` equation, and changing the dimension `unit_price` (to 999)
leaves the transform output unchanged. -/
theorem claim_C3_witness :
    ((⟨some "t1", some "p1", some "s1", some 2, some 10, some (2024, 1, 1), some "c1",
        some 20, some "Widget", some "Toys", some "Store A", some "NYC"⟩ :
          EnrichedRow).total_amount
        = optMul (⟨some "t1", some "p1", some "s1", some 2, some 10, some (2024, 1, 1),
            some "c1", some 20, some "Widget", some "Toys", some "Store A", some "NYC"⟩ :
              EnrichedRow).quantity
            (⟨some "t1", some "p1", some "s1", some 2, some 10, some (2024, 1, 1),
              some "c1", some 20, some "Widget", some "Toys", some "Store A", some "NYC"⟩ :
                EnrichedRow).unit_price) ∧
      process_sales_analytics [scenarioSale] [scenarioProduct] [scenarioStore] =
        process_sales_analytics [scenarioSale]
          [⟨some "p1", some "Widget", some "Toys", some 999⟩] [scenarioStore] :=
  ⟨(claim_C3 [scenarioSale] [scenarioProduct] [] [scenarioStore]
      ⟨some "t1", some "p1", some "s1", some 2, some 10, some (2024, 1, 1), some "c1",
        some 20, some "Widget", some "Toys", some "Store A", some "NYC"⟩).1
      (by
        simp [enrichedSales, cleanSales, joinProducts, joinStores, dropUnitPrice,
          keyMatch, optMul, parseDate, splitDash, parseNatDigits, digitVal,
          scenarioSale, scenarioProduct, scenarioStore]
        norm_num),
   (claim_C3 [scenarioSale] [scenarioProduct]
        [⟨some "p1", some "Widget", some "Toys", some 999⟩] [scenarioStore]
        ⟨none, none, none, none, none, none, none, none, none, none, none, none⟩).2
      (by decide)⟩



/-- A left join emits at least one row per left row. -/
theorem joinProducts_ne_nil (ps : List ProductRow) (c : CleanRow) :
    joinProducts ps c ≠ [] := by
  unfold joinProducts
  by_cases h : (ps.filter (fun p => keyMatch c.product_id p.product_id)).isEmpty
  · rw [if_pos h]
    simp
  · rw [if_neg h]
    simp only [ne_eq, List.map_eq_nil_iff]
    intro hnil
    rw [hnil] at h
    exact h rfl

/-- The stores left join emits at least one row per left row. -/
theorem joinStores_ne_nil (ss : List StoreRow) (pj : ProdJoined) :
    joinStores ss pj ≠ [] := by
  unfold joinStores
  by_cases h : (ss.filter (fun t => keyMatch pj.store_id t.store_id)).isEmpty
  · rw [if_pos h]
    simp
  · rw [if_neg h]
    simp only [ne_eq, List.map_eq_nil_iff]
    intro hnil
    rw [hnil] at h
    exact h rfl

/-- With no matching product row, the left join emits exactly the
null-padded row. -/
theorem joinProducts_unmatched (ps : List ProductRow) (c : CleanRow)
    (h : ∀ p ∈ ps, keyMatch c.product_id p.product_id = false) :
    joinProducts ps c =
      [⟨c.transaction_id, c.product_id, c.store_id, c.quantity, c.unit_price,
        c.transaction_date, c.customer_id, c.total_amount, none, none⟩] := by
  unfold joinProducts
  have hf : ps.filter (fun p => keyMatch c.product_id p.product_id) = [] := by
    rw [List.filter_eq_nil_iff]
    intro p hp
    rw [h p hp]
    simp
  rw [hf]
  rfl

/-- With no matching store row, the left join emits exactly the
null-padded row. -/
theorem joinStores_unmatched (ss : List StoreRow) (pj : ProdJoined)
    (h : ∀ t ∈ ss, keyMatch pj.store_id t.store_id = false) :
    joinStores ss pj =
      [⟨pj.transaction_id, pj.product_id, pj.store_id, pj.quantity, pj.unit_price,
        pj.transaction_date, pj.customer_id, pj.total_amount, pj.product_name,
        pj.category, none, none⟩] := by
  unfold joinStores
  have hf : ss.filter (fun t => keyMatch pj.store_id t.store_id) = [] := by
    rw [List.filter_eq_nil_iff]
    intro t ht
    rw [h t ht]
    simp
  rw [hf]
  rfl

/-- Every enriched row's grouping key is represented by a row of the
daily view carrying that key's fields. -/
theorem dailySalesOf_mem (rows : List EnrichedRow) (e : EnrichedRow) (he : e ∈ rows) :
    ∃ d ∈ dailySalesOf rows,
      d.transaction_date = e.transaction_date ∧ d.store_id = e.store_id ∧
      d.store_name = e.store_name ∧ d.store_location = e.store_location := by
  unfold dailySalesOf
  have hk : dailyKey e ∈ (rows.map dailyKey).dedup :=
    List.mem_dedup.mpr (List.mem_map_of_mem dailyKey he)
  exact ⟨_, List.mem_map_of_mem _ hk, rfl, rfl, rfl, rfl⟩

/-- Every enriched row's product key is represented in the product view. -/
theorem productPerformanceOf_mem (rows : List EnrichedRow) (e : EnrichedRow)
    (he : e ∈ rows) :
    ∃ p ∈ productPerformanceOf rows,
      p.product_id = e.product_id ∧ p.product_name = e.product_name ∧
      p.category = e.category := by
  unfold productPerformanceOf
  have hk : productKey e ∈ (rows.map productKey).dedup :=
    List.mem_dedup.mpr (List.mem_map_of_mem productKey he)
  exact ⟨_, List.mem_map_of_mem _ hk, rfl, rfl, rfl⟩

/-- Every enriched row's store key is represented in the store view. -/
theorem storePerformanceOf_mem (rows : List EnrichedRow) (e : EnrichedRow)
    (he : e ∈ rows) :
    ∃ s ∈ storePerformanceOf rows,
      s.store_id = e.store_id ∧ s.store_name = e.store_name ∧
      s.store_location = e.store_location := by
  unfold storePerformanceOf
  have hk : storeKey e ∈ (rows.map storeKey).dedup :=
    List.mem_dedup.mpr (List.mem_map_of_mem storeKey he)
  exact ⟨_, List.mem_map_of_mem _ hk, rfl, rfl, rfl⟩

/-- C2: left-join preservation — every transaction row appears in the
EnrichedTransaction result (first conjunct, with no matching hypothesis);
for a transaction whose `product_id` matches no product row and whose
`store_id` matches no store row, the enriched row appears with all four
dimension fields null, and each of the three aggregate views contains a
group carrying the null dimension values for that row's key rather than
dropping it. -/
theorem claim_C2 (sales : List SalesRow) (products : List ProductRow)
    (stores : List StoreRow) (s : SalesRow) (hs : s ∈ sales)
    (hp : ∀ p ∈ products, keyMatch s.product_id p.product_id = false)
    (ht : ∀ t ∈ stores, keyMatch s.store_id t.store_id = false) :
    (∀ s2 ∈ sales, ∃ e ∈ enrichedSales sales products stores,
        e.transaction_id = s2.transaction_id ∧ e.product_id = s2.product_id ∧
        e.store_id = s2.store_id ∧ e.quantity = s2.quantity ∧
        e.unit_price = s2.unit_price ∧ e.customer_id = s2.customer_id) ∧
    (⟨s.transaction_id, s.product_id, s.store_id, s.quantity, s.unit_price,
        s.transaction_date.bind parseDate, s.customer_id,
        optMul s.quantity s.unit_price, none, none, none, none⟩ : EnrichedRow) ∈
      enrichedSales sales products stores ∧
    (∃ d ∈ (process_sales_analytics sales products stores).1,
        d.transaction_date = s.transaction_date.bind parseDate ∧
        d.store_id = s.store_id ∧ d.store_name = none ∧ d.store_location = none) ∧
    (∃ pp ∈ (process_sales_analytics sales products stores).2.1,
        pp.product_id = s.product_id ∧ pp.product_name = none ∧ pp.category = none) ∧
    (∃ sp ∈ (process_sales_analytics sales products stores).2.2,
        sp.store_id = s.store_id ∧ sp.store_name = none ∧ sp.store_location = none) := by
  have hp2 : ∀ p ∈ products.map dropUnitPrice,
      keyMatch (cleanSales s).product_id p.product_id = false := by
    intro p hmem
    rcases List.mem_map.mp hmem with ⟨p0, hp0, rfl⟩
    exact hp p0 hp0
  have hnull :
      (⟨s.transaction_id, s.product_id, s.store_id, s.quantity, s.unit_price,
        s.transaction_date.bind parseDate, s.customer_id,
        optMul s.quantity s.unit_price, none, none, none, none⟩ : EnrichedRow) ∈
      enrichedSales sales products stores := by
    unfold enrichedSales
    apply List.mem_flatMap.mpr
    refine ⟨⟨s.transaction_id, s.product_id, s.store_id, s.quantity, s.unit_price,
      s.transaction_date.bind parseDate, s.customer_id,
      optMul s.quantity s.unit_price, none, none⟩, ?_, ?_⟩
    · apply List.mem_flatMap.mpr
      refine ⟨cleanSales s, List.mem_map_of_mem cleanSales hs, ?_⟩
      rw [joinProducts_unmatched _ _ hp2]
      simp [cleanSales]
    · rw [joinStores_unmatched]
      · simp
      · intro t htm
        exact ht t htm
  refine ⟨?_, hnull, ?_, ?_, ?_⟩
  · intro s2 hs2
    have hc : cleanSales s2 ∈ sales.map cleanSales := List.mem_map_of_mem cleanSales hs2
    obtain ⟨pj, hpj⟩ :=
      List.exists_mem_of_ne_nil _
        (joinProducts_ne_nil (products.map dropUnitPrice) (cleanSales s2))
    obtain ⟨e, hes⟩ := List.exists_mem_of_ne_nil _ (joinStores_ne_nil stores pj)
    refine ⟨e, ?_, ?_⟩
    · unfold enrichedSales
      apply List.mem_flatMap.mpr
      exact ⟨pj, List.mem_flatMap.mpr ⟨cleanSales s2, hc, hpj⟩, hes⟩
    · obtain ⟨h1, h2, h3, h4, h5, -, h7, -⟩ := mem_joinProducts_fields _ _ _ hpj
      obtain ⟨g1, g2, g3, g4, g5, -, g7, -, -, -⟩ := mem_joinStores_fields _ _ _ hes
      exact ⟨g1.trans h1, g2.trans h2, g3.trans h3, g4.trans h4, g5.trans h5,
        g7.trans h7⟩
  · obtain ⟨d, hd, h1, h2, h3, h4⟩ := dailySalesOf_mem _ _ hnull
    exact ⟨d, hd, h1, h2, h3, h4⟩
  · obtain ⟨p, hpm, h1, h2, h3⟩ := productPerformanceOf_mem _ _ hnull
    exact ⟨p, hpm, h1, h2, h3⟩
  · obtain ⟨t, htm, h1, h2, h3⟩ := storePerformanceOf_mem _ _ hnull
    exact ⟨t, htm, h1, h2, h3⟩

/-- Witness for C2 with the scenario transaction and empty dimension
tables (so nothing matches). -/
theorem claim_C2_witness :
    (∀ s2 ∈ [scenarioSale], ∃ e ∈ enrichedSales [scenarioSale] [] [],
        e.transaction_id = s2.transaction_id ∧ e.product_id = s2.product_id ∧
        e.store_id = s2.store_id ∧ e.quantity = s2.quantity ∧
        e.unit_price = s2.unit_price ∧ e.customer_id = s2.customer_id) ∧
    (⟨scenarioSale.transaction_id, scenarioSale.product_id, scenarioSale.store_id,
        scenarioSale.quantity, scenarioSale.unit_price,
        scenarioSale.transaction_date.bind parseDate, scenarioSale.customer_id,
        optMul scenarioSale.quantity scenarioSale.unit_price,
        none, none, none, none⟩ : EnrichedRow) ∈
      enrichedSales [scenarioSale] [] [] ∧
    (∃ d ∈ (process_sales_analytics [scenarioSale] [] []).1,
        d.transaction_date = scenarioSale.transaction_date.bind parseDate ∧
        d.store_id = scenarioSale.store_id ∧ d.store_name = none ∧
        d.store_location = none) ∧
    (∃ pp ∈ (process_sales_analytics [scenarioSale] [] []).2.1,
        pp.product_id = scenarioSale.product_id ∧ pp.product_name = none ∧
        pp.category = none) ∧
    (∃ sp ∈ (process_sales_analytics [scenarioSale] [] []).2.2,
        sp.store_id = scenarioSale.store_id ∧ sp.store_name = none ∧
        sp.store_location = none) :=
  claim_C2 [scenarioSale] [] [] scenarioSale (by simp) (by simp) (by simp)



/-- The null-skipping rational sum is invariant under permutation. -/
theorem sparkSumQ_perm {l1 l2 : List (Option ℚ)} (h : l1.Perm l2) :
    sparkSumQ l1 = sparkSumQ l2 := by
  have h2 : (l1.filterMap id).Perm (l2.filterMap id) := h.filterMap id
  unfold sparkSumQ
  by_cases he : (l1.filterMap id).isEmpty
  · have e1 : l1.filterMap id = [] := List.isEmpty_iff.mp he
    have e2 : l2.filterMap id = [] := (e1 ▸ h2).symm.eq_nil
    rw [e1, e2]
  · have e2 : ¬(l2.filterMap id).isEmpty := by
      intro hc
      rw [List.isEmpty_iff.mp hc] at h2
      rw [List.isEmpty_iff, h2.eq_nil] at he
      exact he rfl
    rw [if_neg he, if_neg e2, h2.sum_eq]

/-- The null-skipping integer sum is invariant under permutation. -/
theorem sparkSumZ_perm {l1 l2 : List (Option Int)} (h : l1.Perm l2) :
    sparkSumZ l1 = sparkSumZ l2 := by
  have h2 : (l1.filterMap id).Perm (l2.filterMap id) := h.filterMap id
  unfold sparkSumZ
  by_cases he : (l1.filterMap id).isEmpty
  · have e1 : l1.filterMap id = [] := List.isEmpty_iff.mp he
    have e2 : l2.filterMap id = [] := (e1 ▸ h2).symm.eq_nil
    rw [e1, e2]
  · have e2 : ¬(l2.filterMap id).isEmpty := by
      intro hc
      rw [List.isEmpty_iff.mp hc] at h2
      rw [List.isEmpty_iff, h2.eq_nil] at he
      exact he rfl
    rw [if_neg he, if_neg e2, h2.sum_eq]

/-- The distinct non-null count is invariant under permutation. -/
theorem countDistinct_perm {l1 l2 : List (Option String)} (h : l1.Perm l2) :
    countDistinct l1 = countDistinct l2 := by
  unfold countDistinct
  exact ((h.filterMap id).dedup).length_eq

/-- The null-skipping average is invariant under permutation. -/
theorem sparkAvg_perm {l1 l2 : List (Option ℚ)} (h : l1.Perm l2) :
    sparkAvg l1 = sparkAvg l2 := by
  have h2 : (l1.filterMap id).Perm (l2.filterMap id) := h.filterMap id
  unfold sparkAvg
  by_cases he : (l1.filterMap id).isEmpty
  · have e1 : l1.filterMap id = [] := List.isEmpty_iff.mp he
    have e2 : l2.filterMap id = [] := (e1 ▸ h2).symm.eq_nil
    rw [e1, e2]
  · have e2 : ¬(l2.filterMap id).isEmpty := by
      intro hc
      rw [List.isEmpty_iff.mp hc] at h2
      rw [List.isEmpty_iff, h2.eq_nil] at he
      exact he rfl
    rw [if_neg he, if_neg e2, h2.sum_eq, h2.length_eq]

/-- The daily view of permuted row sets are permutations of each other. -/
theorem dailySalesOf_perm {rows1 rows2 : List EnrichedRow} (h : rows1.Perm rows2) :
    (dailySalesOf rows1).Perm (dailySalesOf rows2) := by
  unfold dailySalesOf
  have hk : ((rows1.map dailyKey).dedup).Perm ((rows2.map dailyKey).dedup) :=
    (h.map dailyKey).dedup
  have hfn : ∀ k, (fun k => ((⟨k.1, k.2.1, k.2.2.1, k.2.2.2,
      sparkSumQ ((rows1.filter (fun r => decide (dailyKey r = k))).map
        (fun r => r.total_amount)),
      sparkSumZ ((rows1.filter (fun r => decide (dailyKey r = k))).map
        (fun r => r.quantity)),
      countDistinct ((rows1.filter (fun r => decide (dailyKey r = k))).map
        (fun r => r.transaction_id)),
      countDistinct ((rows1.filter (fun r => decide (dailyKey r = k))).map
        (fun r => r.customer_id))⟩ : DailyRow))) k
      = (fun k => ((⟨k.1, k.2.1, k.2.2.1, k.2.2.2,
      sparkSumQ ((rows2.filter (fun r => decide (dailyKey r = k))).map
        (fun r => r.total_amount)),
      sparkSumZ ((rows2.filter (fun r => decide (dailyKey r = k))).map
        (fun r => r.quantity)),
      countDistinct ((rows2.filter (fun r => decide (dailyKey r = k))).map
        (fun r => r.transaction_id)),
      countDistinct ((rows2.filter (fun r => decide (dailyKey r = k))).map
        (fun r => r.customer_id))⟩ : DailyRow))) k := by
    intro k
    have hf : (rows1.filter (fun r => decide (dailyKey r = k))).Perm
        (rows2.filter (fun r => decide (dailyKey r = k))) := h.filter _
    simp only
    rw [sparkSumQ_perm (hf.map (fun r => r.total_amount)),
      sparkSumZ_perm (hf.map (fun r => r.quantity)),
      countDistinct_perm (hf.map (fun r => r.transaction_id)),
      countDistinct_perm (hf.map (fun r => r.customer_id))]
  rw [List.map_congr_left (fun k _ => hfn k)]
  exact hk.map _


/-- The product view of permuted row sets are permutations of each other. -/
theorem productPerformanceOf_perm {rows1 rows2 : List EnrichedRow} (h : rows1.Perm rows2) :
    (productPerformanceOf rows1).Perm (productPerformanceOf rows2) := by
  unfold productPerformanceOf
  have hk : ((rows1.map productKey).dedup).Perm ((rows2.map productKey).dedup) :=
    (h.map productKey).dedup
  have hfn : ∀ k, (fun k => ((⟨k.1, k.2.1, k.2.2,
      sparkSumQ ((rows1.filter (fun r => decide (productKey r = k))).map
        (fun r => r.total_amount)),
      sparkSumZ ((rows1.filter (fun r => decide (productKey r = k))).map
        (fun r => r.quantity)),
      sparkAvg ((rows1.filter (fun r => decide (productKey r = k))).map
        (fun r => r.unit_price)),
      countDistinct ((rows1.filter (fun r => decide (productKey r = k))).map
        (fun r => r.store_id))⟩ : ProductPerfRow))) k
      = (fun k => ((⟨k.1, k.2.1, k.2.2,
      sparkSumQ ((rows2.filter (fun r => decide (productKey r = k))).map
        (fun r => r.total_amount)),
      sparkSumZ ((rows2.filter (fun r => decide (productKey r = k))).map
        (fun r => r.quantity)),
      sparkAvg ((rows2.filter (fun r => decide (productKey r = k))).map
        (fun r => r.unit_price)),
      countDistinct ((rows2.filter (fun r => decide (productKey r = k))).map
        (fun r => r.store_id))⟩ : ProductPerfRow))) k := by
    intro k
    have hf : (rows1.filter (fun r => decide (productKey r = k))).Perm
        (rows2.filter (fun r => decide (productKey r = k))) := h.filter _
    simp only
    rw [sparkSumQ_perm (hf.map (fun r => r.total_amount)),
      sparkSumZ_perm (hf.map (fun r => r.quantity)),
      sparkAvg_perm (hf.map (fun r => r.unit_price)),
      countDistinct_perm (hf.map (fun r => r.store_id))]
  rw [List.map_congr_left (fun k _ => hfn k)]
  exact hk.map _

/-- The store view of permuted row sets are permutations of each other. -/
theorem storePerformanceOf_perm {rows1 rows2 : List EnrichedRow} (h : rows1.Perm rows2) :
    (storePerformanceOf rows1).Perm (storePerformanceOf rows2) := by
  unfold storePerformanceOf
  have hk : ((rows1.map storeKey).dedup).Perm ((rows2.map storeKey).dedup) :=
    (h.map storeKey).dedup
  have hfn : ∀ k, (fun k => ((⟨k.1, k.2.1, k.2.2,
      sparkSumQ ((rows1.filter (fun r => decide (storeKey r = k))).map
        (fun r => r.total_amount)),
      sparkSumZ ((rows1.filter (fun r => decide (storeKey r = k))).map
        (fun r => r.quantity)),
      countDistinct ((rows1.filter (fun r => decide (storeKey r = k))).map
        (fun r => r.product_id)),
      countDistinct ((rows1.filter (fun r => decide (storeKey r = k))).map
        (fun r => r.customer_id))⟩ : StorePerfRow))) k
      = (fun k => ((⟨k.1, k.2.1, k.2.2,
      sparkSumQ ((rows2.filter (fun r => decide (storeKey r = k))).map
        (fun r => r.total_amount)),
      sparkSumZ ((rows2.filter (fun r => decide (storeKey r = k))).map
        (fun r => r.quantity)),
      countDistinct ((rows2.filter (fun r => decide (storeKey r = k))).map
        (fun r => r.product_id)),
      countDistinct ((rows2.filter (fun r => decide (storeKey r = k))).map
        (fun r => r.customer_id))⟩ : StorePerfRow))) k := by
    intro k
    have hf : (rows1.filter (fun r => decide (storeKey r = k))).Perm
        (rows2.filter (fun r => decide (storeKey r = k))) := h.filter _
    simp only
    rw [sparkSumQ_perm (hf.map (fun r => r.total_amount)),
      sparkSumZ_perm (hf.map (fun r => r.quantity)),
      countDistinct_perm (hf.map (fun r => r.product_id)),
      countDistinct_perm (hf.map (fun r => r.customer_id))]
  rw [List.map_congr_left (fun k _ => hfn k)]
  exact hk.map _

/-- Enrichment maps permuted transaction sets to permuted enriched sets. -/
theorem enrichedSales_perm {sales1 sales2 : List SalesRow} (products : List ProductRow)
    (stores : List StoreRow) (h : sales1.Perm sales2) :
    (enrichedSales sales1 products stores).Perm (enrichedSales sales2 products stores) := by
  unfold enrichedSales
  exact (((h.map cleanSales).flatMap_right
    (joinProducts (products.map dropUnitPrice))).flatMap_right (joinStores stores))

/-- C6: the transform is deterministic and order-insensitive — for
transaction sets that are permutations of each other (same dimension
tables), each of the three aggregate views has exactly the same rows
(equal as sets, via membership), and running the transform twice on
identical inputs yields identical outputs (it is a pure function of its
inputs; no state accumulates across runs). -/
theorem claim_C6 (sales1 sales2 : List SalesRow) (products : List ProductRow)
    (stores : List StoreRow) (h : sales1.Perm sales2) :
    (∀ d, d ∈ (process_sales_analytics sales1 products stores).1 ↔
        d ∈ (process_sales_analytics sales2 products stores).1) ∧
    (∀ p, p ∈ (process_sales_analytics sales1 products stores).2.1 ↔
        p ∈ (process_sales_analytics sales2 products stores).2.1) ∧
    (∀ t, t ∈ (process_sales_analytics sales1 products stores).2.2 ↔
        t ∈ (process_sales_analytics sales2 products stores).2.2) ∧
    process_sales_analytics sales1 products stores =
      process_sales_analytics sales1 products stores := by
  have he : (enrichedSales sales1 products stores).Perm
      (enrichedSales sales2 products stores) := enrichedSales_perm products stores h
  exact ⟨fun d => (dailySalesOf_perm he).mem_iff,
    fun p => (productPerformanceOf_perm he).mem_iff,
    fun t => (storePerformanceOf_perm he).mem_iff, rfl⟩

/-- Witness for C6 on a two-transaction set and its swap: the scenario
summary row lies in one output iff it lies in the other, and a repeated
run is identical. -/
theorem claim_C6_witness :
    ((⟨some (2024, 1, 1), some "s1", some "Store A", some "NYC",
        some 20, some 2, 1, 1⟩ : DailyRow) ∈
      (process_sales_analytics
        [scenarioSale, ⟨some "t2", some "p1", some "s1", some 1, some 5,
          some "2024-01-02", some "c2"⟩]
        [scenarioProduct] [scenarioStore]).1 ↔
    (⟨some (2024, 1, 1), some "s1", some "Store A", some "NYC",
        some 20, some 2, 1, 1⟩ : DailyRow) ∈
      (process_sales_analytics
        [⟨some "t2", some "p1", some "s1", some 1, some 5,
          some "2024-01-02", some "c2"⟩, scenarioSale]
        [scenarioProduct] [scenarioStore]).1) ∧
    process_sales_analytics
        [scenarioSale, ⟨some "t2", some "p1", some "s1", some 1, some 5,
          some "2024-01-02", some "c2"⟩] [scenarioProduct] [scenarioStore] =
      process_sales_analytics
        [scenarioSale, ⟨some "t2", some "p1", some "s1", some 1, some 5,
          some "2024-01-02", some "c2"⟩] [scenarioProduct] [scenarioStore] :=
  ⟨(claim_C6 _ _ [scenarioProduct] [scenarioStore]
      (List.Perm.swap (⟨some "t2", some "p1", some "s1", some 1, some 5,
        some "2024-01-02", some "c2"⟩ : SalesRow) scenarioSale [])).1 _,
   (claim_C6 _ [⟨some "t2", some "p1", some "s1", some 1, some 5,
        some "2024-01-02", some "c2"⟩, scenarioSale] [scenarioProduct] [scenarioStore]
      (List.Perm.swap (⟨some "t2", some "p1", some "s1", some 1, some 5,
        some "2024-01-02", some "c2"⟩ : SalesRow) scenarioSale [])).2.2.2⟩


end ETL
